import Mathlib

/-!
Verification development for the jira-cloud-api parameter-resolution pipeline.

The TypeScript sources embedded here are:
  src/aiParameterExtractor.ts  (AIParameterExtractor)
  src/informationExtractor.ts  (InformationExtractor)
  src/conversationManager.ts   (ConversationManager)

Machine strings are modelled as Lean String (lists of characters); JS string
truthiness (null and the empty string are falsy) is modelled explicitly by
strTruthy.  Confidences (JS floating-point numbers in [0,1], only ever set to
0, 0.6, 0.9, 1.0 and values returned by the completion capability) are
modelled as rationals.  Case conversion uses the core ASCII Char.toLower /
Char.toUpper, which agrees with JS toLowerCase/toUpperCase on ASCII input.
The external completion capability and the standard-library JSON parser are
the abstraction boundary: extractParameters takes the outcome of the
completion call (error, or content whose defensively-parsed JSON either
failed or produced a record of optional fields) as an explicit argument.
-/

namespace JiraSpec

/- ## Generic string helpers (JS semantics) -/

/-- JS truthiness of a string-or-null value: null and the empty string are falsy. -/
def strTruthy : Option String → Bool
  | none => false
  | some s => s != ""

/-- JS toLowerCase, ASCII semantics, via the core per-character conversion. -/
def jsToLower (s : String) : String :=
  String.mk (s.data.map Char.toLower)

/-- JS toUpperCase, ASCII semantics. -/
def jsToUpper (s : String) : String :=
  String.mk (s.data.map Char.toUpper)

/-- JS charAt(0).toUpperCase() + slice(1): uppercase the first character. -/
def capitalizeFirst (s : String) : String :=
  match s.data with
  | [] => ""
  | c :: cs => String.mk (Char.toUpper c :: cs)

/-- JS String.prototype.trim on a character list. -/
def listTrim (l : List Char) : List Char :=
  ((l.dropWhile Char.isWhitespace).reverse.dropWhile Char.isWhitespace).reverse

/-- JS String.prototype.trim. -/
def jsTrim (s : String) : String :=
  String.mk (listTrim s.data)

/-- Substring containment on character lists. -/
def listIsInfix (sub : List Char) : List Char → Bool
  | [] => sub.isPrefixOf []
  | c :: cs => sub.isPrefixOf (c :: cs) || listIsInfix sub cs

/-- JS String.prototype.includes: case-sensitive substring containment. -/
def jsIncludes (s sub : String) : Bool :=
  listIsInfix sub.data s.data

/- ## The extracted-parameter data model (src/aiParameterExtractor.ts lines 4-16) -/

/-- Provenance tag of an extracted field (ExtractedParameter.source). -/
inductive Source where
  | ai_extracted
  | user_confirmed
  | follow_up_question
  | default
deriving DecidableEq

/-- ExtractedParameter: a field value with confidence and provenance. -/
structure ExtractedParameter where
  value : Option String
  confidence : ℚ
  source : Source
deriving DecidableEq

/-- ExtractedParameters: the five-field extraction record. -/
structure ExtractedParameters where
  title : ExtractedParameter
  type : ExtractedParameter
  project : ExtractedParameter
  priority : ExtractedParameter
  description : ExtractedParameter
deriving DecidableEq

/-- AIParameterExtractor.createEmptyExtraction (lines 309-317). -/
def createEmptyExtraction : ExtractedParameters :=
  { title := ⟨none, 0, Source.ai_extracted⟩
    type := ⟨none, 0, Source.ai_extracted⟩
    project := ⟨none, 0, Source.ai_extracted⟩
    priority := ⟨none, 0, Source.ai_extracted⟩
    description := ⟨none, 0, Source.ai_extracted⟩ }

/-- AIParameterExtractor.createDefaultExtraction (lines 319-327). -/
def createDefaultExtraction : ExtractedParameters :=
  { title := ⟨none, 0, Source.ai_extracted⟩
    type := ⟨some "Bug", 1, Source.default⟩
    project := ⟨some "FV Demo (Issues)", 1, Source.default⟩
    priority := ⟨some "Medium", 1, Source.default⟩
    description := ⟨none, 0, Source.ai_extracted⟩ }

/-- AIParameterExtractor.applyDefaults (lines 330-350): for type, project and
priority, substitute the canonical default whenever the value is falsy
(null or empty) or the confidence is below 0.6. -/
def applyDefaults (extracted : ExtractedParameters) : ExtractedParameters :=
  let typeF :=
    if strTruthy extracted.type.value = false ∨ extracted.type.confidence < mkRat 6 10 then
      (⟨some "Bug", 1, Source.default⟩ : ExtractedParameter)
    else extracted.type
  let projectF :=
    if strTruthy extracted.project.value = false ∨ extracted.project.confidence < mkRat 6 10 then
      (⟨some "FV Demo (Issues)", 1, Source.default⟩ : ExtractedParameter)
    else extracted.project
  let priorityF :=
    if strTruthy extracted.priority.value = false ∨ extracted.priority.confidence < mkRat 6 10 then
      (⟨some "Medium", 1, Source.default⟩ : ExtractedParameter)
    else extracted.priority
  { extracted with type := typeF, project := projectF, priority := priorityF }

/-- Result of AIParameterExtractor.validateRequiredParameters (lines 378-395). -/
structure ValidationResult where
  isValid : Bool
  missingRequired : List String
deriving DecidableEq

/-- AIParameterExtractor.validateRequiredParameters (lines 378-395): title and
description are required; a field is missing when its value is falsy or its
confidence is below the threshold. -/
def validateRequiredParameters (extracted : ExtractedParameters)
    (confidenceThreshold : ℚ) : ValidationResult :=
  let missing : List String :=
    (if strTruthy extracted.title.value = false ∨
        extracted.title.confidence < confidenceThreshold then ["title"] else []) ++
    (if strTruthy extracted.description.value = false ∨
        extracted.description.confidence < confidenceThreshold then ["description"] else [])
  { isValid := missing.length == 0, missingRequired := missing }

/- ## Parsing the completion response (lines 265-307) -/

/-- Wire shape of one field of the completion response after JSON parsing:
an optional value string and an optional numeric confidence (absent keys are
modelled as none). -/
structure RawParam where
  value : Option String
  confidence : Option ℚ
deriving DecidableEq

/-- Wire shape of the whole parsed completion response. -/
structure RawParams where
  title : Option RawParam
  type : Option RawParam
  project : Option RawParam
  priority : Option RawParam
  description : Option RawParam
deriving DecidableEq

/-- AIParameterExtractor.normalizeParameter (lines 297-307): absent or
non-object fields become null with confidence 0; otherwise the value is
passed through JS truthiness (empty string becomes null) and the confidence
is clamped to [0,1] (an absent confidence counts as 0). -/
def normalizeParameter (param : Option RawParam) : ExtractedParameter :=
  match param with
  | none => ⟨none, 0, Source.ai_extracted⟩
  | some p =>
    { value := match p.value with
        | none => none
        | some s => if s = "" then none else some s
      confidence := max 0 (min 1 (match p.confidence with
        | none => 0
        | some c => c))
      source := Source.ai_extracted }

/-- AIParameterExtractor.parseAIResponse (lines 265-295) after the
standard-library JSON parse: a parse failure (none) yields the empty
extraction, otherwise each field is normalized. -/
def parseAIResponse (parsed : Option RawParams) : ExtractedParameters :=
  match parsed with
  | none => createEmptyExtraction
  | some p =>
    { title := normalizeParameter p.title
      type := normalizeParameter p.type
      project := normalizeParameter p.project
      priority := normalizeParameter p.priority
      description := normalizeParameter p.description }

/- ## Character-level matchers for the fallback regular expressions (lines 99-143)

Each JS regex used by fallbackExtraction is compiled by hand into a position
matcher (what the pattern does at one start position) plus a leftmost-first
scan driver, reproducing the engine's leftmost-match, ordered-alternation,
greedy/lazy backtracking semantics for these particular patterns. -/

/-- The single-quote character. -/
def squoteChar : Char := Char.ofNat 39

/-- The double-quote character. -/
def dquoteChar : Char := '"'

/-- The newline character (the only character besides the comma excluded by
the character class of the unquoted patterns). -/
def newlineChar : Char := Char.ofNat 10

/-- The comma character. -/
def commaChar : Char := ','

/-- Case-insensitive literal match: pat is given in lowercase; returns the
remainder of the text on success. -/
def stripPrefixCI : List Char → List Char → Option (List Char)
  | [], t => some t
  | _ :: _, [] => none
  | p :: ps, c :: cs => if Char.toLower c = p then stripPrefixCI ps cs else none

/-- Leftmost-match driver: try the position matcher at every suffix,
leftmost position first (as the JS engine scans without the g flag). -/
def scanLeftmost (f : List Char → Option (List Char)) : List Char → Option (List Char)
  | [] => f []
  | c :: cs =>
    match f (c :: cs) with
    | some r => some r
    | none => scanLeftmost f cs

/-- Leftmost-match driver for patterns needing the previous character
(word-boundary assertions). -/
def scanLeftmostB (f : Option Char → List Char → Option (List Char)) :
    Option Char → List Char → Option (List Char)
  | prev, [] => f prev []
  | prev, c :: cs =>
    match f prev (c :: cs) with
    | some r => some r
    | none => scanLeftmostB f (some c) cs

/-- The quoted-capture fragment of the patterns: a quote (single or double),
a nonempty run of non-quote characters, then a closing quote of either kind. -/
def quotedCapture (u : List Char) : Option (List Char) :=
  match u with
  | [] => none
  | q :: rest =>
    if q == squoteChar || q == dquoteChar then
      let cap := rest.takeWhile (fun c => !(c == squoteChar || c == dquoteChar))
      let r2 := rest.drop cap.length
      match r2, cap with
      | _ :: _, _ :: _ => some cap
      | _, _ => none
    else none

/-- Position matcher for the quoted patterns (Title:, Description:,
Issue Description: followed by optional whitespace and a quoted capture).
The greedy whitespace run cannot backtrack usefully because quotes are not
whitespace. -/
def matchQuotedLabelAt (label : List Char) (u : List Char) : Option (List Char) :=
  match stripPrefixCI label u with
  | none => none
  | some rest => quotedCapture (rest.dropWhile Char.isWhitespace)

/-- Position matcher for the end-anchored unquoted patterns: a lazy nonempty
capture of characters other than comma and newline, anchored at the end of
the input. The lazy capture reaching the end of input forces the capture to
be the whole remainder after the whitespace run; if that remainder contains
a comma or newline no backtracking can save the match; if the remainder is
empty but whitespace was present, backtracking over the greedy whitespace
leaves the last whitespace character as the capture (the caller then
discards it after trimming). -/
def matchLabelToEndAt (label : List Char) (u : List Char) : Option (List Char) :=
  match stripPrefixCI label u with
  | none => none
  | some rest =>
    let t := rest.dropWhile Char.isWhitespace
    match t with
    | [] =>
      match rest.reverse with
      | [] => none
      | c :: _ => some [c]
    | _ :: _ =>
      if t.any (fun c => c == commaChar || c == newlineChar) then none else some t

/-- The lookahead of the unquoted Title pattern: one or more whitespace
characters followed by Issue Description, Description (case-insensitive) or
the end of the input. -/
def titleLookahead (v : List Char) : Bool :=
  let ws := v.takeWhile Char.isWhitespace
  let v2 := v.drop ws.length
  !ws.isEmpty &&
    ((stripPrefixCI "issue description".data v2).isSome ||
     (stripPrefixCI "description".data v2).isSome ||
     v2.isEmpty)

/-- Lazy capture for the unquoted Title pattern: the shortest nonempty
prefix avoiding commas and newlines whose remainder satisfies the
lookahead. -/
def titleCaptureGo (acc : List Char) : List Char → Option (List Char)
  | [] => none
  | c :: cs =>
    if c == commaChar || c == newlineChar then none
    else if titleLookahead cs then some (acc ++ [c])
    else titleCaptureGo (acc ++ [c]) cs

/-- Backtracking over the greedy whitespace run before the lazy capture:
consume k whitespace characters, k from the full run down to zero. -/
def titleTryDrop (rest : List Char) : Nat → Option (List Char)
  | 0 => titleCaptureGo [] rest
  | Nat.succ k =>
    match titleCaptureGo [] (rest.drop (Nat.succ k)) with
    | some cap => some cap
    | none => titleTryDrop rest k

/-- Position matcher for the unquoted Title pattern (second title pattern of
fallbackExtraction). -/
def matchTitleUnquotedAt (u : List Char) : Option (List Char) :=
  match stripPrefixCI "title:".data u with
  | none => none
  | some rest => titleTryDrop rest (rest.takeWhile Char.isWhitespace).length

/-- The pattern-loop guard of fallbackExtraction: take the first pattern
whose match has a nonempty trim, returning the trimmed capture. -/
def firstGoodMatch : List (Option (List Char)) → Option String
  | [] => none
  | m :: ms =>
    match m with
    | some cap =>
      if (listTrim cap).isEmpty then firstGoodMatch ms
      else some (String.mk (listTrim cap))
    | none => firstGoodMatch ms

/-- AIParameterExtractor.fallbackExtraction (lines 99-143): regex-based
recovery of title and description from labeled segments of the raw input.
Recovered fields get confidence 0.9 and source ai_extracted. -/
def fallbackExtraction (userInput : String) : ExtractedParameters :=
  let l := userInput.data
  let titleMatch := firstGoodMatch
    [scanLeftmost (matchQuotedLabelAt "title:".data) l,
     scanLeftmost matchTitleUnquotedAt l]
  let descMatch := firstGoodMatch
    [scanLeftmost (matchQuotedLabelAt "issue description:".data) l,
     scanLeftmost (matchQuotedLabelAt "description:".data) l,
     scanLeftmost (matchLabelToEndAt "issue description:".data) l,
     scanLeftmost (matchLabelToEndAt "description:".data) l]
  let withTitle :=
    match titleMatch with
    | some t => { createEmptyExtraction with
        title := ⟨some t, mkRat 9 10, Source.ai_extracted⟩ }
    | none => createEmptyExtraction
  match descMatch with
  | some d => { withTitle with
      description := ⟨some d, mkRat 9 10, Source.ai_extracted⟩ }
  | none => withTitle

/- ## extractParameters (lines 25-96) -/

/-- Outcome of the completion call: err models a thrown or empty completion
(the throw on missing content is raised inside the same try block and lands
in the same catch); ok carries the content after the defensive JSON parse
(none models a parse failure). -/
inductive AICallResult where
  | err : AICallResult
  | ok : Option RawParams → AICallResult
deriving DecidableEq

/-- AIParameterExtractor.extractParameters (lines 25-96) as a function of
the input text and the completion-call outcome. On success: parse, patch
title and description from the lexical fallback when the input carries
explicit labels but the parsed result left them falsy (lines 59-72), then
apply defaults. On a thrown error: lexical fallback plus defaults, and when
neither a title nor a description was recovered, the canonical default
extraction (lines 81-95). Preprocessing (lines 29-32) only shapes the
prompt sent to the completion capability and is absorbed by the abstract
call argument. -/
def extractParameters (userInput : String) (call : AICallResult) : ExtractedParameters :=
  match call with
  | AICallResult.ok parsed =>
    let extracted := parseAIResponse parsed
    let patched :=
      if (!strTruthy extracted.title.value || !strTruthy extracted.description.value) &&
         (jsIncludes userInput "Title:" || jsIncludes userInput "Description:") then
        let fallback := fallbackExtraction userInput
        let step1 :=
          if !strTruthy extracted.title.value && strTruthy fallback.title.value then
            { extracted with title := fallback.title }
          else extracted
        if !strTruthy step1.description.value && strTruthy fallback.description.value then
          { step1 with description := fallback.description }
        else step1
      else extracted
    applyDefaults patched
  | AICallResult.err =>
    let fallback := fallbackExtraction userInput
    let fallbackWithDefaults := applyDefaults fallback
    if strTruthy fallbackWithDefaults.title.value ||
       strTruthy fallbackWithDefaults.description.value then
      fallbackWithDefaults
    else createDefaultExtraction

/- ## validateExtractedParameters (lines 398-480) -/

/-- The closed issue-type vocabulary (line 403). -/
def validTypes : List String := ["Bug", "Task", "Story", "Epic"]

/-- The closed priority vocabulary (line 412). -/
def validPriorities : List String := ["Lowest", "Low", "Medium", "High", "Highest"]

/-- The exact-match project synonym table (lines 424-448). -/
def projectMapping : List (String × String) :=
  [("fv demo product", "FV Demo (Product)"),
   ("demo product", "FV Demo (Product)"),
   ("fv demo (product)", "FV Demo (Product)"),
   ("dpd", "FV Demo (Product)"),
   ("fv demo issues", "FV Demo (Issues)"),
   ("demo issues", "FV Demo (Issues)"),
   ("fv demo (issues)", "FV Demo (Issues)"),
   ("demo", "FV Demo (Issues)"),
   ("fvdemo", "FV Demo (Issues)"),
   ("dpi", "FV Demo (Issues)"),
   ("issues", "FV Demo (Issues)"),
   ("fv engineering", "FV Engineering"),
   ("engineering", "FV Engineering"),
   ("eng", "FV Engineering"),
   ("fv product", "FV Product"),
   ("prod", "FV Product")]

/-- The canonical full project names (line 457). -/
def validFullNames : List String :=
  ["FV Demo (Product)", "FV Demo (Issues)", "FV Engineering", "FV Product"]

/-- The second-pass full-name search (lines 458-461). -/
def findFullName (normalizedProject : String) : Option String :=
  validFullNames.find? (fun name =>
    jsToLower name == normalizedProject || normalizedProject == name)

/-- AIParameterExtractor.validateExtractedParameters (lines 398-480): map
type and priority onto their closed vocabularies (replacing invalid non-null
values by the defaults), and resolve the project value through the synonym
table, the full-name pass, and the default-on-ambiguity policy. -/
def validateExtractedParameters (extracted : ExtractedParameters) : ExtractedParameters :=
  let typeF :=
    match extracted.type.value with
    | none => extracted.type
    | some v =>
      if v == "" then extracted.type
      else if validTypes.contains v then extracted.type
      else ⟨some "Bug", 1, Source.default⟩
  let priorityF :=
    match extracted.priority.value with
    | none => extracted.priority
    | some v =>
      if v == "" then extracted.priority
      else if validPriorities.contains v then extracted.priority
      else ⟨some "Medium", 1, Source.default⟩
  let projectF :=
    match extracted.project.value with
    | none => extracted.project
    | some v =>
      if v == "" then extracted.project
      else
        let normalizedProject := jsTrim (jsToLower v)
        match List.lookup normalizedProject projectMapping with
        | some mapped => { extracted.project with value := some mapped }
        | none =>
          match findFullName normalizedProject with
          | some matchingFullName => { extracted.project with value := some matchingFullName }
          | none =>
            if normalizedProject == "product" || normalizedProject == "fv" then
              ⟨some "FV Demo (Issues)", 1, Source.default⟩
            else
              ⟨some "FV Demo (Issues)", 1, Source.default⟩
  { extracted with type := typeF, priority := priorityF, project := projectF }

/- ## Normalization helpers (src/informationExtractor.ts lines 229-250) -/

/-- InformationExtractor.normalizeIssueType (lines 229-238): map known
synonyms to the canonical casing, otherwise capitalize the input. -/
def normalizeIssueType (type : String) : String :=
  let normalized := jsToLower type
  if normalized = "bug" then "Bug"
  else if normalized = "task" then "Task"
  else if normalized = "story" then "Story"
  else if normalized = "epic" then "Epic"
  else capitalizeFirst type

/-- InformationExtractor.normalizePriority (lines 240-250): map known
synonyms to the canonical casing, otherwise capitalize the input. -/
def normalizePriority (priority : String) : String :=
  let normalized := jsToLower priority
  if normalized = "lowest" ∨ normalized = "very low" ∨ normalized = "trivial" then "Lowest"
  else if normalized = "low" ∨ normalized = "minor" then "Low"
  else if normalized = "medium" ∨ normalized = "normal" ∨ normalized = "standard" then "Medium"
  else if normalized = "high" ∨ normalized = "important" ∨ normalized = "urgent" ∨ normalized = "major" then "High"
  else if normalized = "highest" ∨ normalized = "critical" ∨ normalized = "blocker" ∨ normalized = "severe" then "Highest"
  else capitalizeFirst priority

/- ## Character-level matchers for extractExplicitInformation
     (src/informationExtractor.ts lines 5-74) -/

/-- Word character of the regex class \w. -/
def isWordChar (c : Char) : Bool := c.isAlpha || c.isDigit || c == '_'

/-- Letter-or-digit character (the class [A-Z0-9] under the i flag). -/
def isAlnumChar (c : Char) : Bool := c.isAlpha || c.isDigit

/-- Position matcher for the first project pattern: the keyword project or
in, one or more whitespace characters, then a captured run of letters
followed by letters and digits (case-insensitive classes under the i flag).
The greedy quantifiers are deterministic here because a shortened capture
would leave a letter or digit where whitespace or a keyword is required. -/
def matchProjectKeywordAt (u : List Char) : Option (List Char) :=
  let afterKw :=
    match stripPrefixCI "project".data u with
    | some r => some r
    | none => stripPrefixCI "in".data u
  match afterKw with
  | none => none
  | some rest =>
    let ws := rest.takeWhile Char.isWhitespace
    if ws.isEmpty then none
    else
      let rest2 := rest.drop ws.length
      match rest2 with
      | [] => none
      | c :: _ =>
        if c.isAlpha then
          let letters := rest2.takeWhile Char.isAlpha
          let rest3 := rest2.drop letters.length
          let alnum := rest3.takeWhile isAlnumChar
          some (letters ++ alnum)
        else none

/-- Position matcher for the second project pattern: a captured run of
letters then letters and digits, one or more whitespace characters, then the
keyword project (case-insensitive). -/
def matchProjectTrailingAt (u : List Char) : Option (List Char) :=
  match u with
  | [] => none
  | c :: _ =>
    if c.isAlpha then
      let letters := u.takeWhile Char.isAlpha
      let rest := u.drop letters.length
      let alnum := rest.takeWhile isAlnumChar
      let rest2 := rest.drop alnum.length
      let ws := rest2.takeWhile Char.isWhitespace
      if ws.isEmpty then none
      else if (stripPrefixCI "project".data (rest2.drop ws.length)).isSome then
        some (letters ++ alnum)
      else none
    else none

/-- Capture of the fragment (\w+) at the head of the text. -/
def wordCapture (u : List Char) : Option (List Char) :=
  let w := u.takeWhile isWordChar
  if w.isEmpty then none else some w

/-- Optional-article alternation of the shape (?:a\s+)? or (?:is\s+|of\s+)?
followed by the (\w+) capture, with the engine's backtracking: each
alternative is tried together with its mandatory trailing whitespace and the
following capture, falling back to the empty alternative. -/
def optWordTail (opts : List (List Char)) (u : List Char) : Option (List Char) :=
  match opts with
  | [] => wordCapture u
  | o :: os =>
    match stripPrefixCI o u with
    | some r =>
      let ws := r.takeWhile Char.isWhitespace
      if ws.isEmpty then optWordTail os u
      else
        match wordCapture (r.drop ws.length) with
        | some w => some w
        | none => optWordTail os u
    | none => optWordTail os u

/-- Position matcher for regexes of the shape
(?:kw1|kw2)\s+(?:opt1\s+|opt2\s+)?(\w+), case-insensitive. -/
def matchKwWordAt (kws : List (List Char)) (opts : List (List Char))
    (u : List Char) : Option (List Char) :=
  match kws.findSome? (fun kw => stripPrefixCI kw u) with
  | none => none
  | some rest =>
    let ws := rest.takeWhile Char.isWhitespace
    if ws.isEmpty then none
    else optWordTail opts (rest.drop ws.length)

/-- Ordered alternation for the level-word priority pattern: each level word
must be followed by whitespace and the word priority ending at a word
boundary. -/
def tryPriorityAlts : List (List Char) → List Char → Option (List Char)
  | [], _ => none
  | alt :: alts, u =>
    match stripPrefixCI alt u with
    | some r =>
      let ws := r.takeWhile Char.isWhitespace
      if ws.isEmpty then tryPriorityAlts alts u
      else
        match stripPrefixCI "priority".data (r.drop ws.length) with
        | some r2 =>
          if (match r2 with | [] => true | c :: _ => !isWordChar c) then
            some (u.take alt.length)
          else tryPriorityAlts alts u
        | none => tryPriorityAlts alts u
    | none => tryPriorityAlts alts u

/-- Position matcher (with word-boundary context) for the pattern matching
low, medium, high or critical followed by the word priority. -/
def matchLevelPriorityAt (prev : Option Char) (u : List Char) : Option (List Char) :=
  match prev with
  | some pc =>
    if isWordChar pc then none
    else tryPriorityAlts ["low".data, "medium".data, "high".data, "critical".data] u
  | none => tryPriorityAlts ["low".data, "medium".data, "high".data, "critical".data] u

/-- Ordered alternation for the bare urgency words, each ending at a word
boundary. -/
def tryUrgencyAlts : List (List Char) → List Char → Option (List Char)
  | [], _ => none
  | alt :: alts, u =>
    match stripPrefixCI alt u with
    | some r =>
      if (match r with | [] => true | c :: _ => !isWordChar c) then
        some (u.take alt.length)
      else tryUrgencyAlts alts u
    | none => tryUrgencyAlts alts u

/-- Position matcher (with word-boundary context) for the bare urgency-word
pattern matching urgent, critical or important. -/
def matchUrgencyAt (prev : Option Char) (u : List Char) : Option (List Char) :=
  match prev with
  | some pc =>
    if isWordChar pc then none
    else tryUrgencyAlts ["urgent".data, "critical".data, "important".data] u
  | none => tryUrgencyAlts ["urgent".data, "critical".data, "important".data] u

/-- The first double-quoted nonempty substring (the title pattern of line
67). -/
def findDoubleQuoted : List Char → Option (List Char)
  | [] => none
  | c :: rest =>
    if c == dquoteChar then
      let cap := rest.takeWhile (fun x => !(x == dquoteChar))
      let r2 := rest.drop cap.length
      match r2, cap with
      | _ :: _, _ :: _ => some cap
      | _, _ => findDoubleQuoted rest
    else findDoubleQuoted rest

/-- Modelled from the spec: the partial issue descriptor (IssueData of
types.ts, which is not under src): the five optional issue fields collected
during a conversation. -/
structure IssueData where
  project : Option String
  issueType : Option String
  priority : Option String
  title : Option String
  description : Option String
deriving DecidableEq

/-- The empty partial issue descriptor. -/
def emptyIssueData : IssueData := ⟨none, none, none, none, none⟩

/-- The project-pattern loop of extractExplicitInformation (lines 12-24):
the first match whose capture has length at most 10 wins and is uppercased;
a longer capture lets the loop continue. -/
def projectPatternLoop : List (Option (List Char)) → Option String
  | [] => none
  | m :: ms =>
    match m with
    | some cap =>
      if cap.length ≤ 10 then some (String.mk (cap.map Char.toUpper))
      else projectPatternLoop ms
    | none => projectPatternLoop ms

/-- The type-pattern loop (lines 26-47): a captured word is accepted only
from the closed list; the generic words issue and ticket end the loop
without setting a type; a word outside the list lets the loop continue. -/
def typePatternLoop : List (Option (List Char)) → Option String
  | [] => none
  | m :: ms =>
    match m with
    | some cap =>
      let t := String.mk (cap.map Char.toLower)
      if t = "bug" ∨ t = "task" ∨ t = "story" ∨ t = "epic" ∨ t = "issue" ∨ t = "ticket" then
        if t = "issue" ∨ t = "ticket" then none
        else some (normalizeIssueType t)
      else typePatternLoop ms
    | none => typePatternLoop ms

/-- The priority-pattern loop (lines 49-64): the first matching pattern wins
and its capture is lowercased and normalized unconditionally. -/
def priorityPatternLoop : List (Option (List Char)) → Option String
  | [] => none
  | m :: ms =>
    match m with
    | some cap => some (normalizePriority (String.mk (cap.map Char.toLower)))
    | none => priorityPatternLoop ms

/-- InformationExtractor.extractExplicitInformation (lines 5-74): apply the
project, type, priority and quoted-title pattern families, in this order,
first match winning within each family. -/
def extractExplicitInformation (userInput : String) : IssueData :=
  let l := userInput.data
  let project := projectPatternLoop
    [scanLeftmost matchProjectKeywordAt l,
     scanLeftmost matchProjectTrailingAt l]
  let issueType := typePatternLoop
    [scanLeftmost (matchKwWordAt ["create".data] ["a".data]) l,
     scanLeftmost (matchKwWordAt ["new".data] []) l,
     scanLeftmost (matchKwWordAt ["report".data, "log".data] ["a".data]) l]
  let priority := priorityPatternLoop
    [scanLeftmostB matchLevelPriorityAt none l,
     scanLeftmost (matchKwWordAt ["priority".data] ["is".data, "of".data]) l,
     scanLeftmostB matchUrgencyAt none l]
  let title := (findDoubleQuoted l).map String.mk
  { emptyIssueData with
    project := project, issueType := issueType, priority := priority, title := title }

/- ## Intent detection (src/informationExtractor.ts lines 278-338) -/

/-- The creation keywords of detectsIssueCreationIntent (lines 290-292). -/
def creationKeywords : List String :=
  ["create", "new", "make", "add", "report", "log", "submit"]

/-- The issue-noun keywords of detectsIssueCreationIntent (lines 293-295). -/
def issueKeywords : List String :=
  ["issue", "ticket", "bug", "task", "story", "epic", "problem"]

/-- The problem-indicator phrases of detectsIssuePattern (lines 319-323). -/
def problemIndicators : List String :=
  ["not working", "broken", "error", "issue with", "problem with",
   "unable to", "can't", "cannot", "fails to", "doesn't work",
   "bug in", "issue in", "problem in"]

/-- The feature-request phrases of detectsIssuePattern (lines 329-332). -/
def featureIndicators : List String :=
  ["need", "want", "would like", "should have", "missing",
   "add feature", "new feature", "enhancement", "improvement"]

/-- InformationExtractor.detectsIssuePattern (lines 311-338). -/
def detectsIssuePattern (userInput : String) : Bool :=
  let lowerInput := jsToLower userInput
  let hasTitleDescFormat := jsIncludes lowerInput "title:" &&
    (jsIncludes lowerInput "description:" || jsIncludes lowerInput "issue description:")
  let hasProblemIndicator := problemIndicators.any (fun k => jsIncludes lowerInput k)
  let hasFeatureIndicator := featureIndicators.any (fun k => jsIncludes lowerInput k)
  hasTitleDescFormat || hasProblemIndicator || hasFeatureIndicator

/-- InformationExtractor.detectsIssueCreationIntent (lines 286-308). -/
def detectsIssueCreationIntent (userInput : String) : Bool :=
  let lowerInput := jsToLower userInput
  let hasCreationKeyword := creationKeywords.any (fun k => jsIncludes lowerInput k)
  let hasIssueKeyword := issueKeywords.any (fun k => jsIncludes lowerInput k)
  let hasIssuePattern := detectsIssuePattern userInput
  (hasCreationKeyword && hasIssueKeyword) || hasIssuePattern

/-- InformationExtractor.detectsSearchIntent (lines 278-283). -/
def detectsSearchIntent (userInput : String) : Bool :=
  let lowerInput := jsToLower userInput
  (jsIncludes lowerInput "search" || jsIncludes lowerInput "find") &&
  (jsIncludes lowerInput "issue" || jsIncludes lowerInput "ticket") &&
  !detectsIssueCreationIntent userInput

/- ## Conversation layer (src/conversationManager.ts) -/

/-- Modelled from the spec: the conversation-step enumeration
(IssueCreationStep of types.ts, which is not under src; the states are
listed in section 4.4 of the specification). -/
inductive IssueCreationStep where
  | DETECTING_INTENT
  | AI_EXTRACTING
  | CONFIRMING_DETAILS
  | READY_TO_CREATE
  | ASKING_PROJECT
  | ASKING_TYPE
  | ASKING_TITLE
  | ASKING_DESCRIPTION
  | ASKING_PRIORITY
deriving DecidableEq

/-- Modelled from the spec: ConversationState (types.ts, not under src):
creation flag, current step, partial issue data, prompted-field set,
extraction results and pending validations. -/
structure ConversationState where
  isCreatingIssue : Bool
  currentStep : IssueCreationStep
  issueData : IssueData
  hasAskedFor : List String
  extractedParameters : Option ExtractedParameters
  pendingValidation : List String
deriving DecidableEq

/-- The initial conversation state (created per request in src/index.ts
lines 278-286). -/
def initialConversationState : ConversationState :=
  ⟨false, IssueCreationStep.DETECTING_INTENT, emptyIssueData, [], none, []⟩

/-- Modelled from the spec: IssueCreationFlow.resetState
(issueCreationFlow.ts, not under src): clears isCreatingIssue, currentStep,
issueData, hasAskedFor and the extraction results back to their initial
values. -/
def resetState (_ : ConversationState) : ConversationState :=
  initialConversationState

/-- The action tags of ConversationManager.processUserInput results. -/
inductive Action where
  | continueAction
  | create_issue
  | search
  | cancel
  | regular_chat
  | error
deriving DecidableEq

/-- The result record of the conversation-manager entry points (the
searchQuery payload of the search action is not needed by the embedded
fragments). -/
structure FlowResult where
  action : Action
  message : Option String
deriving DecidableEq

/-- ConversationManager.convertExtractedToIssueData (lines 187-205): copy
every truthy extracted field into the state's issue data. -/
def convertExtractedToIssueData (extracted : ExtractedParameters)
    (state : ConversationState) : ConversationState :=
  let d0 := state.issueData
  let d1 := if strTruthy extracted.title.value then
      { d0 with title := extracted.title.value } else d0
  let d2 := if strTruthy extracted.type.value then
      { d1 with issueType := extracted.type.value } else d1
  let d3 := if strTruthy extracted.project.value then
      { d2 with project := extracted.project.value } else d2
  let d4 := if strTruthy extracted.priority.value then
      { d3 with priority := extracted.priority.value } else d3
  let d5 := if strTruthy extracted.description.value then
      { d4 with description := extracted.description.value } else d4
  { state with issueData := d5 }

/-- The user-facing message of the failed required-field check
(src/conversationManager.ts line 75): the missing field names joined by the
literal word and. -/
def missingMessage (missingRequired : List String) : String :=
  "❌ Missing required information: " ++ String.intercalate " and " missingRequired ++
    ". Please provide both a title and description in your request."

/-- ConversationManager.startIssueCreationWithAI (lines 47-104) on the AI
path: mark the state as creating, extract, validate and normalize, then run
the required-field check with threshold 0.6; on failure reset the state and
surface the error message; on success copy the fields into the issue data,
record the extraction, and proceed to creation. The catch clause delegating
to the traditional flow (lines 88-103) is unreachable in the embedding
because the embedded extractParameters is total. -/
def startIssueCreationWithAI (userInput : String) (call : AICallResult)
    (state : ConversationState) : FlowResult × ConversationState :=
  let state1 := { state with
    isCreatingIssue := true, currentStep := IssueCreationStep.AI_EXTRACTING }
  let extracted := extractParameters userInput call
  let validated := validateExtractedParameters extracted
  let validation := validateRequiredParameters validated (mkRat 6 10)
  if validation.isValid = false then
    (⟨Action.error, some (missingMessage validation.missingRequired)⟩, resetState state1)
  else
    let state2 := convertExtractedToIssueData validated state1
    let state3 := { state2 with extractedParameters := some validated }
    (⟨Action.create_issue, none⟩, state3)

/-- Modelled from the spec: IssueCreationFlow.checkForCancellation
(issueCreationFlow.ts, not under src): a free-text match of the utterance
against cancel, stop and nevermind style phrases. -/
def checkForCancellation (userInput : String) : Bool :=
  let lowerInput := jsToLower userInput
  jsIncludes lowerInput "cancel" || jsIncludes lowerInput "stop" ||
    jsIncludes lowerInput "nevermind"

/-- The cancellation message (lines 119 and 132). -/
def cancelledMessage : String :=
  "No problem! Issue creation has been cancelled. Let me know if you need help with anything else."

/-- ConversationManager.handleIssueCreationFlow restricted to the
confirmation fragment (lines 114-140): the cancellation pre-check runs
first; then, in the CONFIRMING_DETAILS step with extracted parameters
present, affirmative substrings are checked before negative ones, and any
other utterance re-prompts without changing the state. The delegation to
the traditional per-field flow (lines 142-184, reaching code of
issueCreationFlow.ts that is not under src) lies outside the embedded
fragment and is represented by a bare continue result. -/
def handleConfirmingDetails (userInput : String)
    (state : ConversationState) : FlowResult × ConversationState :=
  if checkForCancellation userInput then
    (⟨Action.cancel, some cancelledMessage⟩, resetState state)
  else if state.currentStep = IssueCreationStep.CONFIRMING_DETAILS ∧
      state.extractedParameters.isSome then
    let lowerInput := jsToLower userInput
    if jsIncludes lowerInput "yes" || jsIncludes lowerInput "confirm" ||
        jsIncludes lowerInput "create" then
      (⟨Action.create_issue, none⟩, state)
    else if jsIncludes lowerInput "no" || jsIncludes lowerInput "cancel" then
      (⟨Action.cancel, some cancelledMessage⟩, resetState state)
    else
      (⟨Action.continueAction,
        some "Please confirm by saying 'yes' to create the issue, or 'no' to cancel."⟩, state)
  else
    (⟨Action.continueAction, none⟩, state)

/- ## Concrete records used by counterexamples and witnesses -/

/-- A parsed completion-response field carrying a null value together with a
positive confidence. -/
def nullValueHighConfidenceRaw : RawParams :=
  ⟨some ⟨none, some (mkRat 9 10)⟩, none, none, none, none⟩

/-- An extraction whose title value is the empty string at full confidence. -/
def emptyTitleExtraction : ExtractedParameters :=
  { createEmptyExtraction with
    title := ⟨some "", 1, Source.ai_extracted⟩
    description := ⟨some "Users cannot authenticate", 1, Source.ai_extracted⟩ }

/-- An extraction whose type value is the empty string at full confidence. -/
def emptyTypeExtraction : ExtractedParameters :=
  { createEmptyExtraction with
    type := ⟨some "", 1, Source.ai_extracted⟩
    project := ⟨some "FV Product", 1, Source.ai_extracted⟩
    priority := ⟨some "High", 1, Source.ai_extracted⟩ }

/-- An extraction whose project value is the empty string. -/
def emptyProjectExtraction : ExtractedParameters :=
  { createEmptyExtraction with
    project := ⟨some "", mkRat 8 10, Source.ai_extracted⟩ }

/-- An extraction whose project value is an unknown nonempty token. -/
def unknownProjectExtraction : ExtractedParameters :=
  { createEmptyExtraction with
    project := ⟨some "zzz", mkRat 8 10, Source.ai_extracted⟩ }

/-- A conversation state sitting at the confirmation step with extraction
results present. -/
def confirmingState : ConversationState :=
  { initialConversationState with
    isCreatingIssue := true
    currentStep := IssueCreationStep.CONFIRMING_DETAILS
    extractedParameters := some createDefaultExtraction }

/- ## Helper lemmas -/

/-- toNat of Char.ofNat at a valid code point. -/
theorem charToNat_ofNat_valid (n : Nat) (h : n.isValidChar) : (Char.ofNat n).toNat = n := by
  simp [Char.ofNat, h, Char.ofNatAux, Char.toNat, UInt32.toNat, BitVec.toNat_ofNatLt]

/-- Lowercasing after uppercasing agrees with lowercasing (ASCII). -/
theorem toLower_toUpper (c : Char) : c.toUpper.toLower = c.toLower := by
  simp only [Char.toUpper, Char.toLower]
  by_cases h : c.toNat ≥ 97 ∧ c.toNat ≤ 122
  · rw [if_pos h]
    have hv : (c.toNat - 32).isValidChar := by
      constructor
      omega
    rw [charToNat_ofNat_valid _ hv]
    rw [if_pos (by omega), if_neg (by omega)]
    have h32 : c.toNat - 32 + 32 = c.toNat := by omega
    rw [h32, Char.ofNat_toNat]
  · rw [if_neg h]

/-- Uppercasing is idempotent (ASCII). -/
theorem toUpper_toUpper (c : Char) : c.toUpper.toUpper = c.toUpper := by
  simp only [Char.toUpper]
  by_cases h : c.toNat ≥ 97 ∧ c.toNat ≤ 122
  · rw [if_pos h]
    have hv : (c.toNat - 32).isValidChar := by constructor; omega
    rw [charToNat_ofNat_valid _ hv]
    rw [if_neg (by omega)]
  · rw [if_neg h, if_neg h]

/-- Lowercasing ignores a capitalized first character. -/
theorem jsToLower_capitalizeFirst (s : String) : jsToLower (capitalizeFirst s) = jsToLower s := by
  cases s with
  | mk data =>
    cases data with
    | nil => rfl
    | cons c cs => simp [jsToLower, capitalizeFirst, toLower_toUpper]

/-- Capitalizing the first character is idempotent. -/
theorem capitalizeFirst_capitalizeFirst (s : String) :
    capitalizeFirst (capitalizeFirst s) = capitalizeFirst s := by
  cases s with
  | mk data =>
    cases data with
    | nil => rfl
    | cons c cs => simp [capitalizeFirst, toUpper_toUpper]

/-- JS falsiness of a string-or-null value is exactly null-or-empty. -/
theorem strTruthy_eq_false_iff (v : Option String) :
    strTruthy v = false ↔ v = none ∨ v = some "" := by
  cases v with
  | none => simp [strTruthy]
  | some s => simp [strTruthy]

/-- applyDefaults never touches the title field. -/
theorem applyDefaults_title (e : ExtractedParameters) :
    (applyDefaults e).title = e.title := rfl

/-- applyDefaults never touches the description field. -/
theorem applyDefaults_description (e : ExtractedParameters) :
    (applyDefaults e).description = e.description := rfl

/-- Unfolded form of normalizeIssueType. -/
theorem normalizeIssueType_eval (s : String) :
    normalizeIssueType s =
      (if jsToLower s = "bug" then "Bug"
       else if jsToLower s = "task" then "Task"
       else if jsToLower s = "story" then "Story"
       else if jsToLower s = "epic" then "Epic"
       else capitalizeFirst s) := rfl

/-- Unfolded form of normalizePriority. -/
theorem normalizePriority_eval (s : String) :
    normalizePriority s =
      (if jsToLower s = "lowest" ∨ jsToLower s = "very low" ∨ jsToLower s = "trivial" then "Lowest"
       else if jsToLower s = "low" ∨ jsToLower s = "minor" then "Low"
       else if jsToLower s = "medium" ∨ jsToLower s = "normal" ∨ jsToLower s = "standard" then "Medium"
       else if jsToLower s = "high" ∨ jsToLower s = "important" ∨ jsToLower s = "urgent" ∨ jsToLower s = "major" then "High"
       else if jsToLower s = "highest" ∨ jsToLower s = "critical" ∨ jsToLower s = "blocker" ∨ jsToLower s = "severe" then "Highest"
       else capitalizeFirst s) := rfl

/-- normalizeIssueType is idempotent. -/
theorem normalizeIssueType_idem (s : String) :
    normalizeIssueType (normalizeIssueType s) = normalizeIssueType s := by
  rw [normalizeIssueType_eval s]
  by_cases h1 : jsToLower s = "bug"
  · rw [if_pos h1]; decide
  rw [if_neg h1]
  by_cases h2 : jsToLower s = "task"
  · rw [if_pos h2]; decide
  rw [if_neg h2]
  by_cases h3 : jsToLower s = "story"
  · rw [if_pos h3]; decide
  rw [if_neg h3]
  by_cases h4 : jsToLower s = "epic"
  · rw [if_pos h4]; decide
  rw [if_neg h4]
  rw [normalizeIssueType_eval (capitalizeFirst s), jsToLower_capitalizeFirst]
  rw [if_neg h1, if_neg h2, if_neg h3, if_neg h4]
  exact capitalizeFirst_capitalizeFirst s

/-- normalizePriority is idempotent. -/
theorem normalizePriority_idem (s : String) :
    normalizePriority (normalizePriority s) = normalizePriority s := by
  rw [normalizePriority_eval s]
  by_cases g1 : jsToLower s = "lowest" ∨ jsToLower s = "very low" ∨ jsToLower s = "trivial"
  · rw [if_pos g1]; decide
  rw [if_neg g1]
  by_cases g2 : jsToLower s = "low" ∨ jsToLower s = "minor"
  · rw [if_pos g2]; decide
  rw [if_neg g2]
  by_cases g3 : jsToLower s = "medium" ∨ jsToLower s = "normal" ∨ jsToLower s = "standard"
  · rw [if_pos g3]; decide
  rw [if_neg g3]
  by_cases g4 : jsToLower s = "high" ∨ jsToLower s = "important" ∨ jsToLower s = "urgent" ∨ jsToLower s = "major"
  · rw [if_pos g4]; decide
  rw [if_neg g4]
  by_cases g5 : jsToLower s = "highest" ∨ jsToLower s = "critical" ∨ jsToLower s = "blocker" ∨ jsToLower s = "severe"
  · rw [if_pos g5]; decide
  rw [if_neg g5]
  rw [normalizePriority_eval (capitalizeFirst s), jsToLower_capitalizeFirst]
  rw [if_neg g1, if_neg g2, if_neg g3, if_neg g4, if_neg g5]
  exact capitalizeFirst_capitalizeFirst s

/-- A capitalized string lowercases to the lowercase of its capitalization,
so a capitalized value equal to a canonical word forces the corresponding
lowercased input. -/
theorem jsToLower_of_capitalizeFirst_eq (s w : String) (h : capitalizeFirst s = w) :
    jsToLower s = jsToLower w := by
  rw [← jsToLower_capitalizeFirst s, h]

/-- normalizeIssueType lands in the closed type vocabulary exactly when the
lowercased input is one of the four type synonyms. -/
theorem normalizeIssueType_vocab (s : String) :
    (normalizeIssueType s = "Bug" ∨ normalizeIssueType s = "Task" ∨
      normalizeIssueType s = "Story" ∨ normalizeIssueType s = "Epic") ↔
    (jsToLower s = "bug" ∨ jsToLower s = "task" ∨
      jsToLower s = "story" ∨ jsToLower s = "epic") := by
  rw [normalizeIssueType_eval s]
  by_cases h1 : jsToLower s = "bug"
  · rw [if_pos h1]; simp [h1]
  rw [if_neg h1]
  by_cases h2 : jsToLower s = "task"
  · rw [if_pos h2]; simp [h2]
  rw [if_neg h2]
  by_cases h3 : jsToLower s = "story"
  · rw [if_pos h3]; simp [h3]
  rw [if_neg h3]
  by_cases h4 : jsToLower s = "epic"
  · rw [if_pos h4]; simp [h4]
  rw [if_neg h4]
  constructor
  · rintro (hc | hc | hc | hc)
    · exact absurd ((jsToLower_of_capitalizeFirst_eq s _ hc).trans (by decide)) h1
    · exact absurd ((jsToLower_of_capitalizeFirst_eq s _ hc).trans (by decide)) h2
    · exact absurd ((jsToLower_of_capitalizeFirst_eq s _ hc).trans (by decide)) h3
    · exact absurd ((jsToLower_of_capitalizeFirst_eq s _ hc).trans (by decide)) h4
  · rintro (h | h | h | h)
    · exact absurd h h1
    · exact absurd h h2
    · exact absurd h h3
    · exact absurd h h4

/-- normalizePriority lands in the closed priority vocabulary exactly when
the lowercased input is one of the sixteen priority synonyms. -/
theorem normalizePriority_vocab (s : String) :
    (normalizePriority s = "Lowest" ∨ normalizePriority s = "Low" ∨
      normalizePriority s = "Medium" ∨ normalizePriority s = "High" ∨
      normalizePriority s = "Highest") ↔
    (jsToLower s = "lowest" ∨ jsToLower s = "very low" ∨ jsToLower s = "trivial" ∨
      jsToLower s = "low" ∨ jsToLower s = "minor" ∨
      jsToLower s = "medium" ∨ jsToLower s = "normal" ∨ jsToLower s = "standard" ∨
      jsToLower s = "high" ∨ jsToLower s = "important" ∨ jsToLower s = "urgent" ∨
      jsToLower s = "major" ∨
      jsToLower s = "highest" ∨ jsToLower s = "critical" ∨ jsToLower s = "blocker" ∨
      jsToLower s = "severe") := by
  rw [normalizePriority_eval s]
  by_cases g1 : jsToLower s = "lowest" ∨ jsToLower s = "very low" ∨ jsToLower s = "trivial"
  · rw [if_pos g1]
    constructor
    · intro _
      rcases g1 with h | h | h <;> simp [h]
    · intro _
      exact Or.inl rfl
  rw [if_neg g1]
  by_cases g2 : jsToLower s = "low" ∨ jsToLower s = "minor"
  · rw [if_pos g2]
    constructor
    · intro _
      rcases g2 with h | h <;> simp [h]
    · intro _
      exact Or.inr (Or.inl rfl)
  rw [if_neg g2]
  by_cases g3 : jsToLower s = "medium" ∨ jsToLower s = "normal" ∨ jsToLower s = "standard"
  · rw [if_pos g3]
    constructor
    · intro _
      rcases g3 with h | h | h <;> simp [h]
    · intro _
      exact Or.inr (Or.inr (Or.inl rfl))
  rw [if_neg g3]
  by_cases g4 : jsToLower s = "high" ∨ jsToLower s = "important" ∨ jsToLower s = "urgent" ∨
      jsToLower s = "major"
  · rw [if_pos g4]
    constructor
    · intro _
      rcases g4 with h | h | h | h <;> simp [h]
    · intro _
      exact Or.inr (Or.inr (Or.inr (Or.inl rfl)))
  rw [if_neg g4]
  by_cases g5 : jsToLower s = "highest" ∨ jsToLower s = "critical" ∨ jsToLower s = "blocker" ∨
      jsToLower s = "severe"
  · rw [if_pos g5]
    constructor
    · intro _
      rcases g5 with h | h | h | h <;> simp [h]
    · intro _
      exact Or.inr (Or.inr (Or.inr (Or.inr rfl)))
  rw [if_neg g5]
  constructor
  · rintro (hc | hc | hc | hc | hc)
    · exact absurd (Or.inl ((jsToLower_of_capitalizeFirst_eq s _ hc).trans (by decide))) g1
    · exact absurd (Or.inl ((jsToLower_of_capitalizeFirst_eq s _ hc).trans (by decide))) g2
    · exact absurd (Or.inl ((jsToLower_of_capitalizeFirst_eq s _ hc).trans (by decide))) g3
    · exact absurd (Or.inl ((jsToLower_of_capitalizeFirst_eq s _ hc).trans (by decide))) g4
    · exact absurd (Or.inl ((jsToLower_of_capitalizeFirst_eq s _ hc).trans (by decide))) g5
  · rintro (h | h | h | h | h | h | h | h | h | h | h | h | h | h | h | h)
    · exact absurd (Or.inl h) g1
    · exact absurd (Or.inr (Or.inl h)) g1
    · exact absurd (Or.inr (Or.inr h)) g1
    · exact absurd (Or.inl h) g2
    · exact absurd (Or.inr h) g2
    · exact absurd (Or.inl h) g3
    · exact absurd (Or.inr (Or.inl h)) g3
    · exact absurd (Or.inr (Or.inr h)) g3
    · exact absurd (Or.inl h) g4
    · exact absurd (Or.inr (Or.inl h)) g4
    · exact absurd (Or.inr (Or.inr (Or.inl h))) g4
    · exact absurd (Or.inr (Or.inr (Or.inr h))) g4
    · exact absurd (Or.inl h) g5
    · exact absurd (Or.inr (Or.inl h)) g5
    · exact absurd (Or.inr (Or.inr (Or.inl h))) g5
    · exact absurd (Or.inr (Or.inr (Or.inr h))) g5

/-- A list has length zero under Boolean equality exactly when it is empty. -/
theorem length_beq_zero_eq_isEmpty (l : List String) : (l.length == 0) = l.isEmpty := by
  cases l <;> rfl

/-- The missing-required list, with the falsiness test spelled out as
null-or-empty. -/
theorem validateRequired_missing_eq (e : ExtractedParameters) (t : ℚ) :
    (validateRequiredParameters e t).missingRequired =
      (if e.title.value = none ∨ e.title.value = some "" ∨ e.title.confidence < t
        then ["title"] else []) ++
      (if e.description.value = none ∨ e.description.value = some "" ∨
          e.description.confidence < t
        then ["description"] else []) := by
  simp only [validateRequiredParameters]
  congr 1
  · exact if_congr (by rw [strTruthy_eq_false_iff, or_assoc]) rfl rfl
  · exact if_congr (by rw [strTruthy_eq_false_iff, or_assoc]) rfl rfl

/-- The validity flag is the emptiness of the missing-required list. -/
theorem validateRequired_isValid_eq (e : ExtractedParameters) (t : ℚ) :
    (validateRequiredParameters e t).isValid =
      (validateRequiredParameters e t).missingRequired.isEmpty := by
  simp only [validateRequiredParameters]
  exact length_beq_zero_eq_isEmpty _

/-- Unfolded form of applyDefaults. -/
theorem applyDefaults_eval (e : ExtractedParameters) :
    applyDefaults e = { e with
      type := if strTruthy e.type.value = false ∨ e.type.confidence < mkRat 6 10
        then ⟨some "Bug", 1, Source.default⟩ else e.type
      project := if strTruthy e.project.value = false ∨ e.project.confidence < mkRat 6 10
        then ⟨some "FV Demo (Issues)", 1, Source.default⟩ else e.project
      priority := if strTruthy e.priority.value = false ∨ e.priority.confidence < mkRat 6 10
        then ⟨some "Medium", 1, Source.default⟩ else e.priority } := rfl

/-- Unfolded form of the project field after validateExtractedParameters. -/
theorem validateExtracted_project_eval (e : ExtractedParameters) :
    (validateExtractedParameters e).project =
      (match e.project.value with
       | none => e.project
       | some v =>
         if v == "" then e.project
         else
           match List.lookup (jsTrim (jsToLower v)) projectMapping with
           | some mapped => { e.project with value := some mapped }
           | none =>
             match findFullName (jsTrim (jsToLower v)) with
             | some matchingFullName => { e.project with value := some matchingFullName }
             | none =>
               if jsTrim (jsToLower v) == "product" || jsTrim (jsToLower v) == "fv" then
                 (⟨some "FV Demo (Issues)", 1, Source.default⟩ : ExtractedParameter)
               else ⟨some "FV Demo (Issues)", 1, Source.default⟩) := rfl

/-- applyDefaults is idempotent (helper form). -/
theorem applyDefaults_idem_aux (e : ExtractedParameters) :
    applyDefaults (applyDefaults e) = applyDefaults e := by
  have hBug : (strTruthy (some "Bug") = false ∨ (1 : ℚ) < mkRat 6 10) = False :=
    eq_false (by decide)
  have hIss : (strTruthy (some "FV Demo (Issues)") = false ∨ (1 : ℚ) < mkRat 6 10) = False :=
    eq_false (by decide)
  have hMed : (strTruthy (some "Medium") = false ∨ (1 : ℚ) < mkRat 6 10) = False :=
    eq_false (by decide)
  rw [applyDefaults_eval e, applyDefaults_eval]
  dsimp only
  by_cases ht : strTruthy e.type.value = false ∨ e.type.confidence < mkRat 6 10 <;>
    by_cases hp : strTruthy e.project.value = false ∨ e.project.confidence < mkRat 6 10 <;>
      by_cases hr : strTruthy e.priority.value = false ∨ e.priority.confidence < mkRat 6 10 <;>
        simp [ht, hp, hr, hBug, hIss, hMed]

/-- The type field after applyDefaults, with the condition spelled out as
null-or-empty-or-low-confidence. -/
theorem applyDefaults_type_char (e : ExtractedParameters) :
    (applyDefaults e).type =
      if e.type.value = none ∨ e.type.value = some "" ∨ e.type.confidence < mkRat 6 10
      then ⟨some "Bug", 1, Source.default⟩ else e.type := by
  rw [applyDefaults_eval]
  exact if_congr (by rw [strTruthy_eq_false_iff, or_assoc]) rfl rfl

/-- The project field after applyDefaults. -/
theorem applyDefaults_project_char (e : ExtractedParameters) :
    (applyDefaults e).project =
      if e.project.value = none ∨ e.project.value = some "" ∨
          e.project.confidence < mkRat 6 10
      then ⟨some "FV Demo (Issues)", 1, Source.default⟩ else e.project := by
  rw [applyDefaults_eval]
  exact if_congr (by rw [strTruthy_eq_false_iff, or_assoc]) rfl rfl

/-- The priority field after applyDefaults. -/
theorem applyDefaults_priority_char (e : ExtractedParameters) :
    (applyDefaults e).priority =
      if e.priority.value = none ∨ e.priority.value = some "" ∨
          e.priority.confidence < mkRat 6 10
      then ⟨some "Medium", 1, Source.default⟩ else e.priority := by
  rw [applyDefaults_eval]
  exact if_congr (by rw [strTruthy_eq_false_iff, or_assoc]) rfl rfl

/-- A field kept by a defaulting step has a present value. -/
theorem kept_value_isSome (x : ExtractedParameter)
    (h : ¬ (strTruthy x.value = false ∨ x.confidence < mkRat 6 10)) :
    x.value.isSome = true := by
  rcases not_or.mp h with ⟨ha, _⟩
  cases hv : x.value with
  | none => exact absurd (by rw [hv]; rfl) ha
  | some s => rfl

/-- The type value is always present after applyDefaults. -/
theorem applyDefaults_type_isSome (e : ExtractedParameters) :
    (applyDefaults e).type.value.isSome = true := by
  rw [applyDefaults_eval]
  dsimp only
  by_cases ht : strTruthy e.type.value = false ∨ e.type.confidence < mkRat 6 10
  · rw [if_pos ht]; rfl
  · rw [if_neg ht]; exact kept_value_isSome _ ht

/-- The project value is always present after applyDefaults. -/
theorem applyDefaults_project_isSome (e : ExtractedParameters) :
    (applyDefaults e).project.value.isSome = true := by
  rw [applyDefaults_eval]
  dsimp only
  by_cases hp : strTruthy e.project.value = false ∨ e.project.confidence < mkRat 6 10
  · rw [if_pos hp]; rfl
  · rw [if_neg hp]; exact kept_value_isSome _ hp

/-- The priority value is always present after applyDefaults. -/
theorem applyDefaults_priority_isSome (e : ExtractedParameters) :
    (applyDefaults e).priority.value.isSome = true := by
  rw [applyDefaults_eval]
  dsimp only
  by_cases hr : strTruthy e.priority.value = false ∨ e.priority.confidence < mkRat 6 10
  · rw [if_pos hr]; rfl
  · rw [if_neg hr]; exact kept_value_isSome _ hr

/- ## Claim theorems -/

/-- C1: extractParameters is total (never throws outward, always returning an
ExtractedParameters value), and on a thrown completion error, when the
lexical fallback recovers neither a non-null title nor a non-null
description, the result is exactly the canonical all-default extraction:
type Bug, project FV Demo (Issues) and priority Medium each with confidence
1.0 and source default, and null title and description each with confidence
0. -/
theorem extractParameters_error_yields_canonical_default
    (input : String)
    (h1 : (fallbackExtraction input).title.value = none)
    (h2 : (fallbackExtraction input).description.value = none) :
    extractParameters input AICallResult.err = createDefaultExtraction ∧
    createDefaultExtraction =
      { title := ⟨none, 0, Source.ai_extracted⟩
        type := ⟨some "Bug", 1, Source.default⟩
        project := ⟨some "FV Demo (Issues)", 1, Source.default⟩
        priority := ⟨some "Medium", 1, Source.default⟩
        description := ⟨none, 0, Source.ai_extracted⟩ } := by
  refine ⟨?_, rfl⟩
  have e1 : strTruthy (applyDefaults (fallbackExtraction input)).title.value = false := by
    rw [applyDefaults_title, h1]; rfl
  have e2 : strTruthy (applyDefaults (fallbackExtraction input)).description.value = false := by
    rw [applyDefaults_description, h2]; rfl
  simp [extractParameters, e1, e2]

/-- Witness for C1 at the empty input. -/
theorem extractParameters_error_yields_canonical_default_witness :
    (fallbackExtraction "").title.value = none ∧
    (fallbackExtraction "").description.value = none ∧
    extractParameters "" AICallResult.err = createDefaultExtraction :=
  ⟨by decide, by decide,
    (extractParameters_error_yields_canonical_default "" (by decide) (by decide)).1⟩

/-- C2 (amended): the required-field check reports a field in
missingRequired exactly when its value is null or the empty string or its
confidence is strictly below the threshold (the threshold itself passes),
and isValid holds exactly when missingRequired is empty. -/
theorem validateRequired_missing_characterization :
    ∀ (e : ExtractedParameters) (t : ℚ),
      (validateRequiredParameters e t).missingRequired =
        (if e.title.value = none ∨ e.title.value = some "" ∨ e.title.confidence < t
          then ["title"] else []) ++
        (if e.description.value = none ∨ e.description.value = some "" ∨
            e.description.confidence < t
          then ["description"] else []) ∧
      (validateRequiredParameters e t).isValid =
        (validateRequiredParameters e t).missingRequired.isEmpty :=
  fun e t => ⟨validateRequired_missing_eq e t, validateRequired_isValid_eq e t⟩

/-- C2 counterexample: a present but empty title at full confidence is
reported missing although its value is not null and its confidence is not
below the 0.6 threshold. -/
theorem validateRequired_empty_title_counterexample :
    emptyTitleExtraction.title.value = some "" ∧
    emptyTitleExtraction.title.confidence = 1 ∧
    decide (emptyTitleExtraction.title.confidence < mkRat 6 10) = false ∧
    (validateRequiredParameters emptyTitleExtraction (mkRat 6 10)).missingRequired = ["title"] ∧
    (validateRequiredParameters emptyTitleExtraction (mkRat 6 10)).isValid = false :=
  ⟨rfl, rfl, by decide, by decide, by decide⟩

/-- C3: whenever the required-field check fails on the AI-assisted creation
path, the controller returns an error action, the conversation state is
reset to its initial shape, and the message is built from exactly the
missing fields among title and description joined by the literal word
and. -/
theorem startIssueCreation_missing_resets_and_names_fields
    (input : String) (call : AICallResult) (state : ConversationState)
    (h : (validateRequiredParameters (validateExtractedParameters
        (extractParameters input call)) (mkRat 6 10)).isValid = false) :
    (startIssueCreationWithAI input call state).1.action = Action.error ∧
    (startIssueCreationWithAI input call state).2 = initialConversationState ∧
    (startIssueCreationWithAI input call state).1.message =
      some (missingMessage (validateRequiredParameters (validateExtractedParameters
        (extractParameters input call)) (mkRat 6 10)).missingRequired) ∧
    (validateRequiredParameters (validateExtractedParameters
        (extractParameters input call)) (mkRat 6 10)).missingRequired =
      (if (validateExtractedParameters (extractParameters input call)).title.value = none ∨
          (validateExtractedParameters (extractParameters input call)).title.value = some "" ∨
          (validateExtractedParameters (extractParameters input call)).title.confidence <
            mkRat 6 10
        then ["title"] else []) ++
      (if (validateExtractedParameters (extractParameters input call)).description.value = none ∨
          (validateExtractedParameters (extractParameters input call)).description.value =
            some "" ∨
          (validateExtractedParameters (extractParameters input call)).description.confidence <
            mkRat 6 10
        then ["description"] else []) ∧
    missingMessage ["title", "description"] =
      "❌ Missing required information: title and description. Please provide both a title and description in your request." := by
  refine ⟨?_, ?_, ?_, validateRequired_missing_eq _ _, by decide⟩
  · simp only [startIssueCreationWithAI]
    rw [if_pos h]
  · simp only [startIssueCreationWithAI]
    rw [if_pos h]
    rfl
  · simp only [startIssueCreationWithAI]
    rw [if_pos h]

/-- Witness for C3 at the empty input with a failed completion call. -/
theorem startIssueCreation_missing_resets_and_names_fields_witness :
    (validateRequiredParameters (validateExtractedParameters
      (extractParameters "" AICallResult.err)) (mkRat 6 10)).isValid = false ∧
    (startIssueCreationWithAI "" AICallResult.err initialConversationState).1.action =
      Action.error ∧
    (startIssueCreationWithAI "" AICallResult.err initialConversationState).2 =
      initialConversationState ∧
    (startIssueCreationWithAI "" AICallResult.err initialConversationState).1.message =
      some "❌ Missing required information: title and description. Please provide both a title and description in your request." := by
  refine ⟨by decide,
    (startIssueCreation_missing_resets_and_names_fields "" AICallResult.err
      initialConversationState (by decide)).1,
    (startIssueCreation_missing_resets_and_names_fields "" AICallResult.err
      initialConversationState (by decide)).2.1, ?_⟩
  rw [(startIssueCreation_missing_resets_and_names_fields "" AICallResult.err
    initialConversationState (by decide)).2.2.1]
  decide

/-- C4 (amended): every field produced by normalizeParameter has its
confidence clamped to [0,1] and source ai_extracted; an absent or
nonpositive parsed confidence forces confidence 0; the canonical default
and empty extractions and the lexical fallback satisfy the
null-value-implies-zero-confidence invariant; but parsing an arbitrary
completion response does not enforce the invariant (see the
counterexample). -/
theorem normalizeParameter_confidence_properties :
    (∀ p : Option RawParam, 0 ≤ (normalizeParameter p).confidence ∧
      (normalizeParameter p).confidence ≤ 1 ∧
      (normalizeParameter p).source = Source.ai_extracted) ∧
    (∀ q : RawParam, q.confidence = none → (normalizeParameter (some q)).confidence = 0) ∧
    (∀ (q : RawParam) (c : ℚ), q.confidence = some c → c ≤ 0 →
      (normalizeParameter (some q)).confidence = 0) ∧
    (createDefaultExtraction.title.value = none ∧
     createDefaultExtraction.title.confidence = 0 ∧
     createDefaultExtraction.description.value = none ∧
     createDefaultExtraction.description.confidence = 0 ∧
     createEmptyExtraction.title.value = none ∧
     createEmptyExtraction.title.confidence = 0) ∧
    (∀ s : String, (fallbackExtraction s).title.value = none →
      (fallbackExtraction s).title.confidence = 0) ∧
    (∀ s : String, (fallbackExtraction s).description.value = none →
      (fallbackExtraction s).description.confidence = 0) := by
  refine ⟨?_, ?_, ?_, by decide, ?_, ?_⟩
  · intro p
    cases p with
    | none => exact ⟨by decide, by decide, rfl⟩
    | some q =>
      refine ⟨le_max_left 0 _, ?_, rfl⟩
      exact max_le (by norm_num) (min_le_left _ _)
  · intro q hq
    dsimp only [normalizeParameter]
    rw [hq]
    decide
  · intro q c hq hc
    dsimp only [normalizeParameter]
    rw [hq]
    rw [min_eq_right (hc.trans (by norm_num)), max_eq_left hc]
  · intro s h
    simp only [fallbackExtraction] at h ⊢
    cases htm : firstGoodMatch [scanLeftmost (matchQuotedLabelAt "title:".data) s.data,
        scanLeftmost matchTitleUnquotedAt s.data] <;>
      cases hdm : firstGoodMatch
          [scanLeftmost (matchQuotedLabelAt "issue description:".data) s.data,
           scanLeftmost (matchQuotedLabelAt "description:".data) s.data,
           scanLeftmost (matchLabelToEndAt "issue description:".data) s.data,
           scanLeftmost (matchLabelToEndAt "description:".data) s.data] <;>
        simp [htm, hdm, createEmptyExtraction] at h ⊢
  · intro s h
    simp only [fallbackExtraction] at h ⊢
    cases htm : firstGoodMatch [scanLeftmost (matchQuotedLabelAt "title:".data) s.data,
        scanLeftmost matchTitleUnquotedAt s.data] <;>
      cases hdm : firstGoodMatch
          [scanLeftmost (matchQuotedLabelAt "issue description:".data) s.data,
           scanLeftmost (matchQuotedLabelAt "description:".data) s.data,
           scanLeftmost (matchLabelToEndAt "issue description:".data) s.data,
           scanLeftmost (matchLabelToEndAt "description:".data) s.data] <;>
        simp [htm, hdm, createEmptyExtraction] at h ⊢

/-- Witness for C4 on a field with no confidence entry and on the empty
input for the fallback part. -/
theorem normalizeParameter_confidence_properties_witness :
    (⟨none, none⟩ : RawParam).confidence = none ∧
    (normalizeParameter (some ⟨none, none⟩)).confidence = 0 ∧
    (fallbackExtraction "").title.value = none ∧
    (fallbackExtraction "").title.confidence = 0 :=
  ⟨rfl, normalizeParameter_confidence_properties.2.1 ⟨none, none⟩ rfl,
   by decide, normalizeParameter_confidence_properties.2.2.2.2.1 "" (by decide)⟩

/-- C4 counterexample: parsing a completion response whose title field has a
null value and confidence 0.9 produces a field with null value and
confidence 0.9, violating the claimed invariant. -/
theorem parseAIResponse_null_value_positive_confidence :
    nullValueHighConfidenceRaw.title = some ⟨none, some (mkRat 9 10)⟩ ∧
    (parseAIResponse (some nullValueHighConfidenceRaw)).title.value = none ∧
    (parseAIResponse (some nullValueHighConfidenceRaw)).title.confidence = mkRat 9 10 ∧
    decide ((mkRat 9 10 : ℚ) = 0) = false :=
  ⟨rfl, rfl, by decide, by decide⟩

/-- C5 (amended): applyDefaults is idempotent; it substitutes the default
for type, project and priority exactly when the field's value is null or
the empty string or its confidence is below 0.6 (regardless of source),
leaves title and description untouched, and afterwards type, project and
priority always carry a present value. -/
theorem applyDefaults_idempotent_and_default_condition :
    (∀ e : ExtractedParameters, applyDefaults (applyDefaults e) = applyDefaults e) ∧
    (∀ e : ExtractedParameters,
      (applyDefaults e).type =
        (if e.type.value = none ∨ e.type.value = some "" ∨ e.type.confidence < mkRat 6 10
          then ⟨some "Bug", 1, Source.default⟩ else e.type) ∧
      (applyDefaults e).project =
        (if e.project.value = none ∨ e.project.value = some "" ∨
            e.project.confidence < mkRat 6 10
          then ⟨some "FV Demo (Issues)", 1, Source.default⟩ else e.project) ∧
      (applyDefaults e).priority =
        (if e.priority.value = none ∨ e.priority.value = some "" ∨
            e.priority.confidence < mkRat 6 10
          then ⟨some "Medium", 1, Source.default⟩ else e.priority) ∧
      (applyDefaults e).title = e.title ∧
      (applyDefaults e).description = e.description) ∧
    (∀ e : ExtractedParameters,
      (applyDefaults e).type.value.isSome = true ∧
      (applyDefaults e).project.value.isSome = true ∧
      (applyDefaults e).priority.value.isSome = true) :=
  ⟨applyDefaults_idem_aux,
   fun e => ⟨applyDefaults_type_char e, applyDefaults_project_char e,
     applyDefaults_priority_char e, rfl, rfl⟩,
   fun e => ⟨applyDefaults_type_isSome e, applyDefaults_project_isSome e,
     applyDefaults_priority_isSome e⟩⟩

/-- C5 counterexample: a present but empty type value at full confidence is
replaced by the default although its value is not null and its confidence
is not below 0.6. -/
theorem applyDefaults_empty_string_substitution :
    emptyTypeExtraction.type.value = some "" ∧
    emptyTypeExtraction.type.confidence = 1 ∧
    decide (emptyTypeExtraction.type.confidence < mkRat 6 10) = false ∧
    (applyDefaults emptyTypeExtraction).type = ⟨some "Bug", 1, Source.default⟩ ∧
    emptyTypeExtraction.type.source = Source.ai_extracted :=
  ⟨rfl, rfl, by decide, by decide, rfl⟩

/-- C6 (amended): the validator resolves the project value eng to the
canonical FV Engineering, resolves the ambiguous bare tokens product and fv
and every other nonempty unmatched project value to the default project FV
Demo (Issues) with confidence 1.0 and source default (never FV Product);
an empty-string project value, however, is left untouched (see the
counterexample). -/
theorem validateExtracted_project_resolution :
    (∀ e : ExtractedParameters, e.project.value = some "eng" →
      (validateExtractedParameters e).project.value = some "FV Engineering") ∧
    (∀ e : ExtractedParameters, e.project.value = some "product" →
      (validateExtractedParameters e).project =
        ⟨some "FV Demo (Issues)", 1, Source.default⟩) ∧
    (∀ e : ExtractedParameters, e.project.value = some "fv" →
      (validateExtractedParameters e).project =
        ⟨some "FV Demo (Issues)", 1, Source.default⟩) ∧
    (∀ (e : ExtractedParameters) (v : String), e.project.value = some v → v ≠ "" →
      List.lookup (jsTrim (jsToLower v)) projectMapping = none →
      findFullName (jsTrim (jsToLower v)) = none →
      (validateExtractedParameters e).project =
        ⟨some "FV Demo (Issues)", 1, Source.default⟩) := by
  refine ⟨?_, ?_, ?_, ?_⟩
  · intro e h
    rw [validateExtracted_project_eval, h]
    rfl
  · intro e h
    rw [validateExtracted_project_eval, h]
    rfl
  · intro e h
    rw [validateExtracted_project_eval, h]
    rfl
  · intro e v h hne hlk hfn
    rw [validateExtracted_project_eval, h]
    dsimp only
    rw [if_neg (by simp [hne]), hlk, hfn]
    dsimp only
    rw [ite_self]

/-- Witness for C6 on an unknown project token and on the eng synonym. -/
theorem validateExtracted_project_resolution_witness :
    unknownProjectExtraction.project.value = some "zzz" ∧
    List.lookup (jsTrim (jsToLower "zzz")) projectMapping = none ∧
    findFullName (jsTrim (jsToLower "zzz")) = none ∧
    (validateExtractedParameters unknownProjectExtraction).project =
      ⟨some "FV Demo (Issues)", 1, Source.default⟩ ∧
    (validateExtractedParameters { createEmptyExtraction with
        project := ⟨some "eng", mkRat 8 10, Source.ai_extracted⟩ }).project.value =
      some "FV Engineering" :=
  ⟨rfl, by decide, by decide,
   validateExtracted_project_resolution.2.2.2 unknownProjectExtraction "zzz" rfl
     (by decide) (by decide) (by decide),
   validateExtracted_project_resolution.1 _ rfl⟩

/-- C6 counterexample: an empty-string project value is unmatched by the
synonym table and the full-name pass, yet it is left in place instead of
being resolved to the default project. -/
theorem validateExtracted_empty_project_untouched :
    emptyProjectExtraction.project.value = some "" ∧
    List.lookup "" projectMapping = none ∧
    findFullName "" = none ∧
    (validateExtractedParameters emptyProjectExtraction).project =
      emptyProjectExtraction.project ∧
    (validateExtractedParameters emptyProjectExtraction).project.value = some "" :=
  ⟨rfl, by decide, by decide, by decide, by decide⟩

/-- C7 (amended): normalizeIssueType and normalizePriority are idempotent
(normalize of normalize equals normalize), and their result lies in the
closed vocabulary exactly when the lowercased input is one of the known
synonyms; any other input passes through with its first character
uppercased rather than being forced into the vocabulary (see the
counterexample). -/
theorem normalize_roundtrip_and_vocab :
    (∀ s : String, normalizeIssueType (normalizeIssueType s) = normalizeIssueType s) ∧
    (∀ s : String, normalizePriority (normalizePriority s) = normalizePriority s) ∧
    (∀ s : String, (normalizeIssueType s = "Bug" ∨ normalizeIssueType s = "Task" ∨
        normalizeIssueType s = "Story" ∨ normalizeIssueType s = "Epic") ↔
      (jsToLower s = "bug" ∨ jsToLower s = "task" ∨
        jsToLower s = "story" ∨ jsToLower s = "epic")) ∧
    (∀ s : String, (normalizePriority s = "Lowest" ∨ normalizePriority s = "Low" ∨
        normalizePriority s = "Medium" ∨ normalizePriority s = "High" ∨
        normalizePriority s = "Highest") ↔
      (jsToLower s = "lowest" ∨ jsToLower s = "very low" ∨ jsToLower s = "trivial" ∨
        jsToLower s = "low" ∨ jsToLower s = "minor" ∨
        jsToLower s = "medium" ∨ jsToLower s = "normal" ∨ jsToLower s = "standard" ∨
        jsToLower s = "high" ∨ jsToLower s = "important" ∨ jsToLower s = "urgent" ∨
        jsToLower s = "major" ∨
        jsToLower s = "highest" ∨ jsToLower s = "critical" ∨ jsToLower s = "blocker" ∨
        jsToLower s = "severe")) :=
  ⟨normalizeIssueType_idem, normalizePriority_idem,
   normalizeIssueType_vocab, normalizePriority_vocab⟩

/-- C7 counterexample: inputs outside the synonym tables pass through
capitalized instead of being mapped into the closed vocabularies. -/
theorem normalizeIssueType_passthrough_capitalized :
    normalizeIssueType "feature" = "Feature" ∧
    validTypes.contains "Feature" = false ∧
    normalizePriority "asap" = "Asap" ∧
    validPriorities.contains "Asap" = false :=
  ⟨by decide, by decide, by decide, by decide⟩

/-- C8 (amended): detectsSearchIntent is exactly the conjunction of a
search-or-find keyword, an issue-or-ticket keyword, and the absence of
creation intent; the utterance about login, however, carries creation
intent (the creation keyword log occurs inside login) and therefore is NOT
classified as search, while an otherwise identical utterance without such a
substring is. -/
theorem detectsSearchIntent_characterization :
    (∀ s : String, detectsSearchIntent s =
      ((jsIncludes (jsToLower s) "search" || jsIncludes (jsToLower s) "find") &&
       (jsIncludes (jsToLower s) "issue" || jsIncludes (jsToLower s) "ticket") &&
       !detectsIssueCreationIntent s)) ∧
    detectsSearchIntent "search for issues about billing" = true ∧
    detectsIssueCreationIntent "search for issues about billing" = false ∧
    detectsIssueCreationIntent "search for issues about login" = true ∧
    detectsSearchIntent "search for issues about login" = false :=
  ⟨fun _ => rfl, by decide, by decide, by decide, by decide⟩

/-- C8 counterexample: the utterance search for issues about login contains
the creation keyword log inside login, so the classifier reports creation
intent and not search intent. -/
theorem searchIntent_login_misclassified :
    jsIncludes (jsToLower "search for issues about login") "log" = true ∧
    detectsIssueCreationIntent "search for issues about login" = true ∧
    detectsSearchIntent "search for issues about login" = false :=
  ⟨by decide, by decide, by decide⟩

/-- C9 (amended): on the utterance with a single-quoted title the lexical
extractor recovers the issue type Bug but no title, because the title
pattern matches only double-quoted substrings; with the title in double
quotes it recovers both the type Bug and the title API Error. -/
theorem extractExplicit_quoted_title_behavior :
    extractExplicitInformation "Create a bug called 'API Error'" =
      { project := none, issueType := some "Bug", priority := none,
        title := none, description := none } ∧
    (extractExplicitInformation "Create a bug called \"API Error\"").issueType =
      some "Bug" ∧
    (extractExplicitInformation "Create a bug called \"API Error\"").title =
      some "API Error" :=
  ⟨by decide, by decide, by decide⟩

/-- C9 counterexample: on the single-quoted utterance the extractor finds
the type but leaves the title null. -/
theorem extractExplicit_single_quoted_title_not_recovered :
    (extractExplicitInformation "Create a bug called 'API Error'").issueType =
      some "Bug" ∧
    (extractExplicitInformation "Create a bug called 'API Error'").title = none :=
  ⟨by decide, by decide⟩

/-- C10 (amended): in the CONFIRMING_DETAILS step with extracted parameters
present, the cancellation pre-check runs first and cancels with a state
reset; otherwise the affirmative substring check runs before the negative
one: any utterance containing yes, confirm or create triggers create_issue
without changing the state, an utterance containing no or cancel but no
affirmative substring cancels with a state reset, and any other utterance
re-prompts without changing the state. -/
theorem confirming_step_branch_order (input : String) (state : ConversationState)
    (hstep : state.currentStep = IssueCreationStep.CONFIRMING_DETAILS)
    (hparams : state.extractedParameters.isSome = true) :
    (checkForCancellation input = true →
      (handleConfirmingDetails input state).1.action = Action.cancel ∧
      (handleConfirmingDetails input state).2 = initialConversationState) ∧
    (checkForCancellation input = false →
      (jsIncludes (jsToLower input) "yes" || jsIncludes (jsToLower input) "confirm" ||
        jsIncludes (jsToLower input) "create") = true →
      (handleConfirmingDetails input state).1.action = Action.create_issue ∧
      (handleConfirmingDetails input state).2 = state) ∧
    (checkForCancellation input = false →
      (jsIncludes (jsToLower input) "yes" || jsIncludes (jsToLower input) "confirm" ||
        jsIncludes (jsToLower input) "create") = false →
      (jsIncludes (jsToLower input) "no" || jsIncludes (jsToLower input) "cancel") = true →
      (handleConfirmingDetails input state).1.action = Action.cancel ∧
      (handleConfirmingDetails input state).2 = initialConversationState) ∧
    (checkForCancellation input = false →
      (jsIncludes (jsToLower input) "yes" || jsIncludes (jsToLower input) "confirm" ||
        jsIncludes (jsToLower input) "create") = false →
      (jsIncludes (jsToLower input) "no" || jsIncludes (jsToLower input) "cancel") = false →
      (handleConfirmingDetails input state).1.action = Action.continueAction ∧
      (handleConfirmingDetails input state).2 = state) := by
  refine ⟨?_, ?_, ?_, ?_⟩
  · intro hc
    simp [handleConfirmingDetails, hc, resetState]
  · intro hc haff
    simp [handleConfirmingDetails, hc, hstep, hparams, haff]
  · intro hc haff hneg
    simp [handleConfirmingDetails, hc, hstep, hparams, haff, hneg, resetState]
  · intro hc haff hneg
    simp [handleConfirmingDetails, hc, hstep, hparams, haff, hneg]

/-- Witness for C10 at the utterance confirm in the confirmation state. -/
theorem confirming_step_branch_order_witness :
    confirmingState.currentStep = IssueCreationStep.CONFIRMING_DETAILS ∧
    confirmingState.extractedParameters.isSome = true ∧
    checkForCancellation "confirm" = false ∧
    (jsIncludes (jsToLower "confirm") "yes" || jsIncludes (jsToLower "confirm") "confirm" ||
      jsIncludes (jsToLower "confirm") "create") = true ∧
    (handleConfirmingDetails "confirm" confirmingState).1.action = Action.create_issue :=
  ⟨rfl, rfl, by decide, by decide,
   ((confirming_step_branch_order "confirm" confirmingState rfl rfl).2.1
     (by decide) (by decide)).1⟩

/-- C10 counterexample: an utterance containing both yes and cancel is
captured by the cancellation pre-check and cancels, although the claim
says any utterance containing yes triggers create_issue. -/
theorem confirming_step_cancel_precheck_overrides :
    jsIncludes (jsToLower "yes, cancel the issue") "yes" = true ∧
    confirmingState.currentStep = IssueCreationStep.CONFIRMING_DETAILS ∧
    confirmingState.extractedParameters.isSome = true ∧
    (handleConfirmingDetails "yes, cancel the issue" confirmingState).1.action =
      Action.cancel :=
  ⟨by decide, rfl, rfl, by decide⟩

end JiraSpec
